import Mathlib

/-!
Verification development for the entropy pool and derived-randomness cache of
`randomness_service.py` (enhanced-docs-browser repository).

The numeric code is embedded shallowly: Python floats become elements of a
linear ordered field with a floor (instantiated at `ℝ` for the full pipeline
and at `ℚ` for concrete witnesses), Python's `%` on non-negative floats with
modulus 1.0 becomes `Int.fract`, Python's `int()` truncation becomes `py_int`,
and the library draws that the source obtains from `time`, `secrets`, `hash`,
`numpy.random` and `hashlib` become explicit input fields of `CollectInputs`.
-/

namespace RandomnessService

variable {K : Type} [LinearOrderedField K] [FloorRing K]

/-- The fixed positional source weights of `EntropyPool.get_mixed_entropy`
(source line 125): `weights = [0.2, 0.15, 0.15, 0.15, 0.1, 0.15, 0.1]`. -/
def weights : List K :=
  [0.2, 0.15, 0.15, 0.15, 0.1, 0.15, 0.1]

/-- Contribution of one `(source name, weight)` pair to one mixed value
(source lines 128-131): the source is skipped when its name is not a key of
`self.sources` or its observation list is empty; otherwise it contributes
`weight * values[i % len(values)]`. -/
def srcContrib (pool : List (String × List K)) (i : ℕ) (sw : String × K) : K :=
  match List.lookup sw.1 pool with
  | none => 0
  | some [] => 0
  | some (v :: vs) => sw.2 * (v :: vs).getD (i % (v :: vs).length) 0

/-- One output value of `get_mixed_entropy` (source lines 123-133): the
weighted sum over `enumerate(sources[:len(weights)])`, reduced by `% 1.0`. -/
def mixValue (pool : List (String × List K)) (srcs : List String) (i : ℕ) : K :=
  Int.fract (((srcs.zip weights).map (srcContrib pool i)).sum)

/-- `EntropyPool.get_mixed_entropy(count, sources)` (source lines 117-135),
as a function of the pool's `sources` dict (an association list). -/
def get_mixed_entropy (pool : List (String × List K)) (count : ℕ)
    (srcs : List String) : List K :=
  (List.range count).map (mixValue pool srcs)

/-- Python `int()` applied to a float: truncation toward zero. -/
def py_int (x : K) : ℤ :=
  if 0 ≤ x then ⌊x⌋ else -⌊-x⌋

/-- The groups of 5 consecutive mixed values consumed by the clustering-weight
loop `for i in range(0, len(mixed_entropy)-5, 5)` (source line 190).  Python's
`range(0, n-5, 5)` has `⌈(n-5)/5⌉ = (n-5+4)/5` elements (natural subtraction
makes this 0 whenever `n ≤ 5`, matching an empty Python range). -/
def clusteringGroups (m : List K) : List (List K) :=
  (List.range ((m.length - 5 + 4) / 5)).map (fun k => (m.drop (5 * k)).take 5)

/-- The clustering-weight construction (source lines 189-196): normalize each
group of 5 by its sum, skipping groups whose sum is not positive. -/
def clustering_weights_of (m : List K) : List (List K) :=
  (clusteringGroups m).filterMap (fun g =>
    if 0 < g.sum then some (g.map (fun w => w / g.sum)) else none)

/-- The six derived caches of `RandomnessCache.cache` (source lines 162-169). -/
structure Caches (K : Type) where
  stochastic_jitter : List K
  clustering_weights : List (List K)
  temporal_variance : List K
  content_seeds : List ℤ
  similarity_thresholds : List K
  exploration_paths : List K

/-- The six derived caches built by `RandomnessCache.generate_cache` from one
mixed stream (source lines 184-216):
`stochastic_jitter = [(v-0.5)*0.2 for v in mixed[:2000]]`,
`clustering_weights` from groups of 5 over the whole stream,
`temporal_variance = [0.5 + v*1.5 for v in mixed[2000:4000]]`,
`content_seeds = [int(v * 2**31) for v in mixed[4000:6000]]`,
`similarity_thresholds = [0.1 + v*0.7 for v in mixed[6000:8000]]`,
`exploration_paths = mixed[8000:]`. -/
def derivedCaches (m : List K) : Caches K where
  stochastic_jitter := (m.take 2000).map (fun v => (v - 0.5) * 0.2)
  clustering_weights := clustering_weights_of m
  temporal_variance := ((m.drop 2000).take 2000).map (fun v => 0.5 + v * 1.5)
  content_seeds := ((m.drop 4000).take 2000).map (fun v => py_int (v * 2 ^ 31))
  similarity_thresholds := ((m.drop 6000).take 2000).map (fun v => 0.1 + v * 0.7)
  exploration_paths := m.drop 8000

/-- The body of `generate_cache` as the ordered sequence of in-place
assignments it performs on the published `self.cache` dict (source lines
184-216, in source order): each step overwrites exactly one of the six
caches of the currently published state. -/
def cacheSteps (m : List K) : List (Caches K → Caches K) :=
  [fun c => { c with stochastic_jitter := (m.take 2000).map (fun v => (v - 0.5) * 0.2) },
   fun c => { c with clustering_weights := clustering_weights_of m },
   fun c => { c with temporal_variance := ((m.drop 2000).take 2000).map (fun v => 0.5 + v * 1.5) },
   fun c => { c with content_seeds := ((m.drop 4000).take 2000).map (fun v => py_int (v * 2 ^ 31)) },
   fun c => { c with similarity_thresholds := ((m.drop 6000).take 2000).map (fun v => 0.1 + v * 0.7) },
   fun c => { c with exploration_paths := m.drop 8000 }]

/-- The published cache state after the first `k` assignment statements of
`generate_cache` have executed on the previously published state `c`. -/
def buildPrefix (m : List K) (k : ℕ) (c : Caches K) : Caches K :=
  ((cacheSteps m).take k).foldl (fun acc f => f acc) c

/-- Bin membership test of `np.histogram(values, bins=10, range=(0, 1))`
(source line 147): ten equal-width bins over `[0, 1]`; bins `0..8` are
half-open, the last bin is closed, and values outside `[0, 1]` fall in no
bin. -/
def binMemB (k : ℕ) (v : K) : Bool :=
  if k = 9 then decide ((9 : K) / 10 ≤ v) && decide (v ≤ 1)
  else decide ((k : K) / 10 ≤ v) && decide (v < ((k : K) + 1) / 10)

/-- The chi-square statistic of `get_entropy_quality` (source lines 147-149):
`sum((hist - expected)**2 / expected)` with `expected = len(values) / 10`. -/
def chi2_stat (values : List K) : K :=
  ∑ k ∈ Finset.range 10,
    ((values.countP (binMemB k) : K) - (values.length : K) / 10) ^ 2
      / ((values.length : K) / 10)

/-- `EntropyPool.get_entropy_quality` (source lines 137-155), parametrized by
the chi-square cumulative distribution function `scipy.stats.chi2.cdf`
(a library routine, modeled as an abstract function of the statistic and the
degrees of freedom): an empty source scores `0.0`, any other source scores
`min(1.0, (1 - cdf(chi2_stat, 9)) * 2)`. -/
def get_entropy_quality (chi2cdf : K → ℕ → K)
    (pool : List (String × List K)) : List (String × K) :=
  pool.map (fun sv =>
    (sv.1, match sv.2 with
           | [] => 0
           | _ :: _ => min 1 ((1 - chi2cdf (chi2_stat sv.2) 9) * 2)))

/-! ### The source collector (`EntropyPool.collect_entropy`, real-valued)

`collect_entropy` draws from `time.time`, `time.time_ns`, `secrets.randbits`,
`hash`, `np.random.uniform` and `hashlib.sha256`.  Those library draws are the
inputs of the embedding; everything the source computes from them is explicit.
-/

/-- The library draws consumed by one call of `collect_entropy`:
`now = time.time()`; per-iteration `time.time_ns()` values; per-iteration
`secrets.randbits(32)` values (guaranteed below `2^32`); per-iteration Python
`hash(...)` values (arbitrary machine integers); per-iteration
`np.random.uniform(0, 2*pi)` phases; per-iteration
`int(sha256(...).hexdigest()[:8], 16)` values (guaranteed below `2^32`). -/
structure CollectInputs where
  now : ℝ
  timeNs : ℕ → ℕ
  cryptoBits : ℕ → Fin (2 ^ 32)
  hashVals : ℕ → ℤ
  phases : ℕ → ℝ
  shaVals : ℕ → Fin (2 ^ 32)

/-- The logistic-map recurrence of the `mathematical` source (source lines
71-76): `x = 0.5`, then `x = r * x * (1 - x)` on each iteration. -/
def logisticIter (r : ℝ) : ℕ → ℝ
  | 0 => 0.5
  | n + 1 => r * logisticIter r n * (1 - logisticIter r n)

/-- One observation of the `quantum_sim` source (source lines 82-83):
`abs(np.sin(phase) + 1j * np.cos(phase)) ** 2`. -/
noncomputable def quantumAmp (phase : ℝ) : ℝ :=
  Complex.abs ((Real.sin phase : ℂ) + (Real.cos phase : ℂ) * Complex.I) ^ 2

/-- `EntropyPool`: the `sources` dict plus `last_refresh` and `refresh_count`
(source lines 35-46). -/
structure EntropyPool where
  sources : List (String × List ℝ)
  last_refresh : ℝ
  refresh_count : ℕ

/-- The `EntropyPool.__init__` state (source lines 35-46): seven named sources
with empty observation lists, `last_refresh = 0`, `refresh_count = 0`. -/
def EntropyPool.init : EntropyPool where
  sources := [("system_time", []), ("crypto_secure", []), ("atmospheric", []),
              ("mathematical", []), ("quantum_sim", []), ("content_hash", []),
              ("temporal_drift", [])]
  last_refresh := 0
  refresh_count := 0

/-- `EntropyPool.collect_entropy` (source lines 48-115).  Each source list is
rebuilt from scratch with 100 observations:
`system_time`: `(time_ns() % 10000) / 10000`;
`crypto_secure`: `secrets.randbits(32) / 2**32`;
`atmospheric`: `(hash(str(now + i*0.001)) % 10000) / 10000` (Python `%` on a
positive modulus is the Euclidean remainder `Int.emod`);
`mathematical`: iterates of the logistic map with
`r = 3.9 + 0.1 * sin(now * 0.1)` (appended after each update, so observation
`k` is iterate `k+1`);
`quantum_sim`: `abs(sin(phase) + 1j*cos(phase)) ** 2`;
`content_hash`: `int(sha256(...)[:8], 16) / 2**32`;
`temporal_drift`: `(sin(now*0.01 + i*0.1) * cos(now*0.007 + i*0.13) + 1) / 2`.
Finally `self.sources` is replaced wholesale, `last_refresh := now` and
`refresh_count` is incremented. -/
noncomputable def collect_entropy (inp : CollectInputs) (pool : EntropyPool) :
    EntropyPool where
  sources :=
    [("system_time", (List.range 100).map
        (fun i => ((inp.timeNs i % 10000 : ℕ) : ℝ) / 10000)),
     ("crypto_secure", (List.range 100).map
        (fun i => ((inp.cryptoBits i : ℕ) : ℝ) / 2 ^ 32)),
     ("atmospheric", (List.range 100).map
        (fun i => (((inp.hashVals i).emod 10000 : ℤ) : ℝ) / 10000)),
     ("mathematical", (List.range 100).map
        (fun k => logisticIter (3.9 + 0.1 * Real.sin (inp.now * 0.1)) (k + 1))),
     ("quantum_sim", (List.range 100).map (fun i => quantumAmp (inp.phases i))),
     ("content_hash", (List.range 100).map
        (fun i => ((inp.shaVals i : ℕ) : ℝ) / 2 ^ 32)),
     ("temporal_drift", (List.range 100).map
        (fun (i : ℕ) => (Real.sin (inp.now * 0.01 + (i : ℝ) * 0.1)
                    * Real.cos (inp.now * 0.007 + (i : ℝ) * 0.13) + 1) / 2))]
  last_refresh := inp.now
  refresh_count := pool.refresh_count + 1

/-! ### The randomness cache and the HTTP read endpoints -/

/-- `RandomnessCache` (source lines 157-171): the entropy pool plus the six
published derived caches (the `cache_metadata` bookkeeping of lines 218-226 is
not modeled; no claim refers to it). -/
structure RandomnessCache where
  entropy_pool : EntropyPool
  cache : Caches ℝ

/-- The `RandomnessCache.__init__` state (source lines 160-171): a fresh pool
and six empty caches. -/
def RandomnessCache.init : RandomnessCache where
  entropy_pool := EntropyPool.init
  cache := ⟨[], [], [], [], [], []⟩

/-- `RandomnessCache.generate_cache` (source lines 173-228) run to completion:
collect fresh entropy, draw `RANDOMNESS_CACHE_SIZE = 10000` mixed values from
the fresh pool (with the default source list, all pool keys), and build the
six derived caches from that single stream. -/
noncomputable def generate_cache (inp : CollectInputs) (rc : RandomnessCache) :
    RandomnessCache :=
  let pool := collect_entropy inp rc.entropy_pool
  { entropy_pool := pool
    cache := derivedCaches
      (get_mixed_entropy pool.sources 10000 (pool.sources.map Prod.fst)) }

/-- Error taxonomy of the HTTP boundary: FastAPI rejects a query parameter
outside its declared `ge`/`le` bounds with a client error before the handler
body runs; the spec calls this `InvalidArgument`. -/
inductive ApiError where
  | invalidArgument
deriving DecidableEq

/-- Response payloads of the read endpoints: scalar lists or vector lists. -/
inductive Resp where
  | floats (values : List ℝ)
  | vectors (values : List (List ℝ))

/-- `GET /entropy/jitter` (source lines 260-269): `count` is declared
`Query(ge=1, le=1000)`; when validation passes, an empty published jitter
cache triggers a synchronous `generate_cache`, then the first `count` values
are served. -/
noncomputable def get_stochastic_jitter (count : ℤ) (inp : CollectInputs)
    (rc : RandomnessCache) : Except ApiError Resp × RandomnessCache :=
  if count < 1 ∨ 1000 < count then (.error .invalidArgument, rc)
  else
    let rc2 := match rc.cache.stochastic_jitter with
               | [] => generate_cache inp rc
               | _ :: _ => rc
    (.ok (.floats (rc2.cache.stochastic_jitter.take count.toNat)), rc2)

/-- `GET /entropy/clustering-weights` (source lines 271-280):
`Query(ge=1, le=100)`. -/
noncomputable def get_clustering_weights (count : ℤ) (inp : CollectInputs)
    (rc : RandomnessCache) : Except ApiError Resp × RandomnessCache :=
  if count < 1 ∨ 100 < count then (.error .invalidArgument, rc)
  else
    let rc2 := match rc.cache.clustering_weights with
               | [] => generate_cache inp rc
               | _ :: _ => rc
    (.ok (.vectors (rc2.cache.clustering_weights.take count.toNat)), rc2)

/-- `GET /entropy/temporal-variance` (source lines 282-291):
`Query(ge=1, le=1000)`. -/
noncomputable def get_temporal_variance (count : ℤ) (inp : CollectInputs)
    (rc : RandomnessCache) : Except ApiError Resp × RandomnessCache :=
  if count < 1 ∨ 1000 < count then (.error .invalidArgument, rc)
  else
    let rc2 := match rc.cache.temporal_variance with
               | [] => generate_cache inp rc
               | _ :: _ => rc
    (.ok (.floats (rc2.cache.temporal_variance.take count.toNat)), rc2)

/-- `GET /entropy/similarity-thresholds` (source lines 293-302):
`Query(ge=1, le=1000)`. -/
noncomputable def get_similarity_thresholds (count : ℤ) (inp : CollectInputs)
    (rc : RandomnessCache) : Except ApiError Resp × RandomnessCache :=
  if count < 1 ∨ 1000 < count then (.error .invalidArgument, rc)
  else
    let rc2 := match rc.cache.similarity_thresholds with
               | [] => generate_cache inp rc
               | _ :: _ => rc
    (.ok (.floats (rc2.cache.similarity_thresholds.take count.toNat)), rc2)

/-- `GET /entropy/exploration-paths` (source lines 304-313):
`Query(ge=1, le=1000)`. -/
noncomputable def get_exploration_paths (count : ℤ) (inp : CollectInputs)
    (rc : RandomnessCache) : Except ApiError Resp × RandomnessCache :=
  if count < 1 ∨ 1000 < count then (.error .invalidArgument, rc)
  else
    let rc2 := match rc.cache.exploration_paths with
               | [] => generate_cache inp rc
               | _ :: _ => rc
    (.ok (.floats (rc2.cache.exploration_paths.take count.toNat)), rc2)

/-- `GET /entropy/mixed` (source lines 315-336): `Query(ge=1, le=5000)`; the
optional comma-separated source list defaults to all pool keys; the handler
mixes straight from the live pool and never touches the derived caches. -/
noncomputable def get_mixed_entropy_endpoint (count : ℤ)
    (srcs : Option (List String)) (rc : RandomnessCache) :
    Except ApiError Resp × RandomnessCache :=
  if count < 1 ∨ 5000 < count then (.error .invalidArgument, rc)
  else
    let source_list := srcs.getD (rc.entropy_pool.sources.map Prod.fst)
    (.ok (.floats (get_mixed_entropy rc.entropy_pool.sources count.toNat
      source_list)), rc)

/-- The six read endpoints. -/
inductive Ep where
  | jitter | clustering | temporal | similarity | exploration | mixed
deriving DecidableEq

/-- The `ge`/`le` bounds declared on each endpoint's `count` query parameter
(source lines 262, 273, 284, 295, 306, 317). -/
def endpointBounds : Ep → ℤ × ℤ
  | .jitter => (1, 1000)
  | .clustering => (1, 100)
  | .temporal => (1, 1000)
  | .similarity => (1, 1000)
  | .exploration => (1, 1000)
  | .mixed => (1, 5000)

/-- Dispatch a request to the read endpoint handlers. -/
noncomputable def handleEndpoint (e : Ep) (count : ℤ)
    (srcs : Option (List String)) (inp : CollectInputs)
    (rc : RandomnessCache) : Except ApiError Resp × RandomnessCache :=
  match e with
  | .jitter => get_stochastic_jitter count inp rc
  | .clustering => get_clustering_weights count inp rc
  | .temporal => get_temporal_variance count inp rc
  | .similarity => get_similarity_thresholds count inp rc
  | .exploration => get_exploration_paths count inp rc
  | .mixed => get_mixed_entropy_endpoint count srcs rc

/-! ### Spec-side renderings

These definitions follow the specification's words, to be compared with the
definitions above, which follow the source. -/

/-- Spec-side value of one mixed output (spec section 4.2 and claim C4):
`sum over the requested sources j that exist in the pool of
weight_j * source_j[i mod len(source_j)]`, with the positional weight vector
(positions beyond the seven listed weights carry no weight). -/
def claimMixedValue (pool : List (String × List K)) (srcs : List String)
    (i : ℕ) : K :=
  ∑ j ∈ Finset.range srcs.length,
    (match List.lookup (srcs.getD j "") pool with
     | none => 0
     | some l => (weights.getD j 0 : K) * l.getD (i % l.length) 0)

/-- Spec-side rendering of claim C1's frame condition: while the body of
`generate_cache` is executing (any proper prefix of its assignment steps),
the published generation is unchanged. -/
def publishedGenerationNeverMutatedMidBuild : Prop :=
  ∀ (m : List ℝ) (c : Caches ℝ) (k : ℕ),
    k < (cacheSteps m).length → buildPrefix m k c = c

/-- Spec-side rendering of "derived cache `F` consumes mixed-stream index
`i`" for claim C2: the cache's value can change between two default-size
(10000-element) mixed streams that agree everywhere except at index `i`. -/
def consumesIndex {α : Type} (F : List ℝ → α) (i : ℕ) : Prop :=
  ∃ m1 m2 : List ℝ, m1.length = 10000 ∧ m2.length = 10000 ∧
    (∀ j, j ≠ i → m1.getD j 0 = m2.getD j 0) ∧ F m1 ≠ F m2

/-! ### Helper lemmas -/

theorem length_get_mixed_entropy (pool : List (String × List K)) (count : ℕ)
    (srcs : List String) : (get_mixed_entropy pool count srcs).length = count := by
  simp [get_mixed_entropy]

theorem mem_get_mixed_entropy_bounds {pool : List (String × List K)}
    {count : ℕ} {srcs : List String} {v : K}
    (hv : v ∈ get_mixed_entropy pool count srcs) : 0 ≤ v ∧ v < 1 := by
  simp only [get_mixed_entropy, List.mem_map] at hv
  obtain ⟨i, -, rfl⟩ := hv
  exact ⟨Int.fract_nonneg _, Int.fract_lt_one _⟩

theorem getD_get_mixed_entropy (pool : List (String × List K)) (count : ℕ)
    (srcs : List String) {i : ℕ} (hi : i < count) :
    (get_mixed_entropy pool count srcs).getD i 0 = mixValue pool srcs i := by
  simp [get_mixed_entropy, List.getD, List.getElem?_map, List.getElem?_range hi]

/-! ### Claim C1 -/

/-- Claim C1, counterexample.  The claim states that building a new generation
never mutates the currently published generation's six derived caches and
that a refresh is an all-or-nothing swap.  This is false of the code:
`generate_cache` assigns the six caches of the one published `self.cache`
dict in place, one statement at a time, so already after its first assignment
statement (a proper prefix of the build, here on the previously published
caches `⟨[1], [], [], [], [], []⟩` with mixed stream `[]`) the published
generation has changed. -/
theorem C1_counterexample : ¬ publishedGenerationNeverMutatedMidBuild := by
  intro h
  have h1 := h [] ⟨[1], [], [], [], [], []⟩ 1 (by simp [cacheSteps])
  have h2 := congrArg Caches.stochastic_jitter h1
  simp [buildPrefix, cacheSteps] at h2

/-- Claim C1, amended: a refresh mutates the published cache in place, field
by field.  After the first assignment statement the published state already
holds the new `stochastic_jitter` next to the old `temporal_variance` and old
`clustering_weights` (so a reader mid-refresh, or after a failed refresh, can
observe a mixed generation); only a build that runs through all its
assignment steps replaces all six caches, and then the result is exactly the
six caches derived from the single mixed stream drawn from the one
freshly-collected `EntropyPool` snapshot, independent of the previously
published state. -/
theorem C1_in_place_build :
    ∀ (m : List ℝ) (c : Caches ℝ) (inp : CollectInputs) (rc : RandomnessCache),
    buildPrefix m (cacheSteps m).length c = derivedCaches m ∧
    (buildPrefix m 1 c).stochastic_jitter = (derivedCaches m).stochastic_jitter ∧
    (buildPrefix m 1 c).temporal_variance = c.temporal_variance ∧
    (buildPrefix m 1 c).clustering_weights = c.clustering_weights ∧
    (generate_cache inp rc).cache = derivedCaches
      (get_mixed_entropy (collect_entropy inp rc.entropy_pool).sources 10000
        ((collect_entropy inp rc.entropy_pool).sources.map Prod.fst)) := by
  intro m c inp rc
  refine ⟨?_, rfl, rfl, rfl, rfl⟩
  cases c
  rfl

/-! ### Claim C2 -/

theorem jitter_head (a : ℝ) (t : List ℝ) :
    (derivedCaches (a :: t)).stochastic_jitter =
      ((a - 0.5) * 0.2) :: ((t.take 1999).map (fun v => (v - 0.5) * 0.2)) := by
  have h : (derivedCaches (a :: t)).stochastic_jitter =
      ((a :: t).take 2000).map (fun v => (v - 0.5) * 0.2) := rfl
  rw [h, show (2000 : ℕ) = 1999 + 1 from rfl, List.take_succ_cons, List.map_cons]

theorem clustering_head (a : ℝ) (ha : 0 < a + 2) :
    ((derivedCaches (a :: List.replicate 9999 ((1 : ℝ) / 2))).clustering_weights).head? =
      some ((a :: List.replicate 4 ((1 : ℝ) / 2)).map (fun w => w / (a + 2))) := by
  have hproj : (derivedCaches (a :: List.replicate 9999 ((1 : ℝ) / 2))).clustering_weights =
      clustering_weights_of (a :: List.replicate 9999 ((1 : ℝ) / 2)) := rfl
  rw [hproj]
  have hg0 : (a :: List.replicate 9999 ((1 : ℝ) / 2)).take 5 =
      a :: List.replicate 4 ((1 : ℝ) / 2) := by
    rw [show (5 : ℕ) = 4 + 1 from rfl, List.take_succ_cons, List.take_replicate]
    norm_num
  have hsum : (a :: List.replicate 4 ((1 : ℝ) / 2)).sum = a + 2 := by
    rw [List.sum_cons, List.sum_replicate, nsmul_eq_mul]
    norm_num
  have hlen : (a :: List.replicate 9999 ((1 : ℝ) / 2)).length = 10000 := by
    rw [List.length_cons, List.length_replicate]
  have hgroups : clusteringGroups (a :: List.replicate 9999 ((1 : ℝ) / 2)) =
      (a :: List.replicate 4 ((1 : ℝ) / 2)) ::
        (List.range 1998).map (fun k =>
          ((a :: List.replicate 9999 ((1 : ℝ) / 2)).drop (5 * (k + 1))).take 5) := by
    unfold clusteringGroups
    rw [hlen, show (10000 - 5 + 4) / 5 = 1998 + 1 from rfl,
      List.range_succ_eq_map, List.map_cons, List.map_map]
    simp only [Function.comp, mul_zero, List.drop_zero, hg0]
    rfl
  have hf : (if 0 < (a :: List.replicate 4 ((1 : ℝ) / 2)).sum then
        some ((a :: List.replicate 4 ((1 : ℝ) / 2)).map
          (fun w => w / (a :: List.replicate 4 ((1 : ℝ) / 2)).sum))
      else none) =
      some ((a :: List.replicate 4 ((1 : ℝ) / 2)).map (fun w => w / (a + 2))) := by
    rw [hsum, if_pos ha]
  unfold clustering_weights_of
  rw [hgroups,
    @List.filterMap_cons_some (List ℝ) (List ℝ)
      (fun g => if 0 < g.sum then some (g.map (fun w => w / g.sum)) else none)
      (a :: List.replicate 4 ((1 : ℝ) / 2))
      ((List.range 1998).map (fun k =>
        ((a :: List.replicate 9999 ((1 : ℝ) / 2)).drop (5 * (k + 1))).take 5))
      ((a :: List.replicate 4 ((1 : ℝ) / 2)).map (fun w => w / (a + 2)))
      hf,
    List.head?_cons]

/-- Claim C2, counterexample.  The claim states that no mixed-stream index is
consumed by more than one derived cache.  This is false of the code: with two
default-size (10000-element) mixed streams that differ only at index 0
(`(1/2) :: (1/2)^9999` versus `(3/5) :: (1/2)^9999`), both the
`stochastic_jitter` cache (built from `mixed[:2000]`) and the
`clustering_weights` cache (built from groups of 5 over the *whole* stream,
`range(0, len-5, 5)`) change, so index 0 is consumed by both. -/
theorem C2_counterexample :
    consumesIndex (fun m => (derivedCaches m).stochastic_jitter) 0 ∧
    consumesIndex (fun m => (derivedCaches m).clustering_weights) 0 := by
  have hlen1 : (((1 : ℝ) / 2) :: List.replicate 9999 ((1 : ℝ) / 2)).length = 10000 := by
    rw [List.length_cons, List.length_replicate]
  have hlen2 : (((3 : ℝ) / 5) :: List.replicate 9999 ((1 : ℝ) / 2)).length = 10000 := by
    rw [List.length_cons, List.length_replicate]
  have hagree : ∀ j : ℕ, j ≠ 0 →
      (((1 : ℝ) / 2) :: List.replicate 9999 ((1 : ℝ) / 2)).getD j 0 =
      (((3 : ℝ) / 5) :: List.replicate 9999 ((1 : ℝ) / 2)).getD j 0 := by
    intro j hj
    cases j with
    | zero => exact absurd rfl hj
    | succ n => rw [List.getD_cons_succ, List.getD_cons_succ]
  constructor
  · have hne : (derivedCaches (((1 : ℝ) / 2) :: List.replicate 9999 ((1 : ℝ) / 2))).stochastic_jitter ≠
        (derivedCaches (((3 : ℝ) / 5) :: List.replicate 9999 ((1 : ℝ) / 2))).stochastic_jitter := by
      intro heq
      have h := congrArg List.head? heq
      rw [jitter_head, jitter_head, List.head?_cons, List.head?_cons,
        Option.some.injEq] at h
      norm_num at h
    exact ⟨((1 : ℝ) / 2) :: List.replicate 9999 ((1 : ℝ) / 2),
      ((3 : ℝ) / 5) :: List.replicate 9999 ((1 : ℝ) / 2),
      hlen1, hlen2, hagree, hne⟩
  · have hne : (derivedCaches (((1 : ℝ) / 2) :: List.replicate 9999 ((1 : ℝ) / 2))).clustering_weights ≠
        (derivedCaches (((3 : ℝ) / 5) :: List.replicate 9999 ((1 : ℝ) / 2))).clustering_weights := by
      intro heq
      have h := congrArg List.head? heq
      rw [clustering_head ((1 : ℝ) / 2) (by norm_num),
        clustering_head ((3 : ℝ) / 5) (by norm_num),
        List.map_cons, List.map_cons, Option.some.injEq, List.cons.injEq] at h
      exact absurd h.1 (by norm_num)
    exact ⟨((1 : ℝ) / 2) :: List.replicate 9999 ((1 : ℝ) / 2),
      ((3 : ℝ) / 5) :: List.replicate 9999 ((1 : ℝ) / 2),
      hlen1, hlen2, hagree, hne⟩

/-- Claim C2, amended: five of the six caches are indeed built from the
consecutive windows `[0,2000)` (stochastic_jitter), `[2000,4000)`
(temporal_variance), `[4000,6000)` (content_seeds), `[6000,8000)`
(similarity_thresholds) and `[8000,end)` (exploration_paths) — each is fully
determined by its own window — but `clustering_weights` is not built from a
window after the jitter block: it consumes groups of 5 consecutive values
taken from the whole stream starting at index 0 (`range(0, len-5, 5)`), so
its indices overlap every other cache's window and it is determined only by
all the 5-element groups together with the stream length. -/
theorem C2_windows :
    ∀ m1 m2 : List ℝ,
    (m1.take 2000 = m2.take 2000 →
      (derivedCaches m1).stochastic_jitter = (derivedCaches m2).stochastic_jitter) ∧
    ((m1.drop 2000).take 2000 = (m2.drop 2000).take 2000 →
      (derivedCaches m1).temporal_variance = (derivedCaches m2).temporal_variance) ∧
    ((m1.drop 4000).take 2000 = (m2.drop 4000).take 2000 →
      (derivedCaches m1).content_seeds = (derivedCaches m2).content_seeds) ∧
    ((m1.drop 6000).take 2000 = (m2.drop 6000).take 2000 →
      (derivedCaches m1).similarity_thresholds = (derivedCaches m2).similarity_thresholds) ∧
    (m1.drop 8000 = m2.drop 8000 →
      (derivedCaches m1).exploration_paths = (derivedCaches m2).exploration_paths) ∧
    (m1.length = m2.length →
      (∀ k, k < (m1.length - 5 + 4) / 5 →
        (m1.drop (5 * k)).take 5 = (m2.drop (5 * k)).take 5) →
      (derivedCaches m1).clustering_weights = (derivedCaches m2).clustering_weights) := by
  intro m1 m2
  refine ⟨fun h => ?_, fun h => ?_, fun h => ?_, fun h => ?_, fun h => ?_,
    fun hlen hg => ?_⟩
  · show (m1.take 2000).map _ = (m2.take 2000).map _
    rw [h]
  · show ((m1.drop 2000).take 2000).map _ = ((m2.drop 2000).take 2000).map _
    rw [h]
  · show ((m1.drop 4000).take 2000).map _ = ((m2.drop 4000).take 2000).map _
    rw [h]
  · show ((m1.drop 6000).take 2000).map _ = ((m2.drop 6000).take 2000).map _
    rw [h]
  · exact h
  · show clustering_weights_of m1 = clustering_weights_of m2
    have hgr : clusteringGroups m1 = clusteringGroups m2 := by
      rw [clusteringGroups, clusteringGroups, ← hlen]
      exact List.map_congr_left (fun k hk => hg k (List.mem_range.mp hk))
    rw [clustering_weights_of, clustering_weights_of, hgr]

/-- Witness for `C2_windows`: two concrete streams agreeing on `[0,2000)`
produce identical `stochastic_jitter` caches. -/
theorem C2_windows_witness :
    (derivedCaches (List.replicate 10000 ((1 : ℝ) / 2) ++ [7])).stochastic_jitter =
      (derivedCaches (List.replicate 10000 ((1 : ℝ) / 2))).stochastic_jitter :=
  (C2_windows (List.replicate 10000 ((1 : ℝ) / 2) ++ [7])
    (List.replicate 10000 ((1 : ℝ) / 2))).1
    (List.take_append_of_le_length
      (by rw [List.length_replicate]; norm_num))

/-! ### Claims C3 and C9 -/

theorem logisticIter_mem {r : ℝ} (hr0 : 0 ≤ r) (hr4 : r ≤ 4) (n : ℕ) :
    0 ≤ logisticIter r n ∧ logisticIter r n ≤ 1 := by
  induction n with
  | zero =>
    constructor <;> norm_num [logisticIter]
  | succ n ih =>
    obtain ⟨h0, h1⟩ := ih
    have heq : logisticIter r (n + 1) =
        r * logisticIter r n * (1 - logisticIter r n) := rfl
    rw [heq]
    constructor
    · exact mul_nonneg (mul_nonneg hr0 h0) (by linarith)
    · nlinarith [sq_nonneg (2 * logisticIter r n - 1),
        mul_nonneg h0 (by linarith : (0 : ℝ) ≤ 1 - logisticIter r n)]

theorem quantumAmp_eq_one (phase : ℝ) : quantumAmp phase = 1 := by
  unfold quantumAmp
  rw [Complex.sq_abs, Complex.normSq_add_mul_I]
  exact Real.sin_sq_add_cos_sq phase

theorem sin_mul_cos_bounds (a b : ℝ) :
    -1 ≤ Real.sin a * Real.cos b ∧ Real.sin a * Real.cos b ≤ 1 := by
  have h : |Real.sin a * Real.cos b| ≤ 1 := by
    rw [abs_mul]
    exact mul_le_one₀ (Real.abs_sin_le_one a) (abs_nonneg _) (Real.abs_cos_le_one b)
  exact abs_le.mp h

/-- Claim C3: `collect_entropy` always succeeds and produces, for each of the
seven enumerated sources, a vector of exactly 100 observations each lying in
`[0, 1]`; the previous observation vectors are replaced wholesale (the fresh
lengths are 100 whatever the old pool held, so nothing is appended),
`last_refresh` is set to the collection time and `refresh_count` increases by
exactly 1 (hence is strictly increasing across calls). -/
theorem C3_collect_entropy :
    ∀ (inp : CollectInputs) (pool : EntropyPool),
    (collect_entropy inp pool).sources.map Prod.fst =
      ["system_time", "crypto_secure", "atmospheric", "mathematical",
       "quantum_sim", "content_hash", "temporal_drift"] ∧
    (∀ sv ∈ (collect_entropy inp pool).sources,
      sv.2.length = 100 ∧ ∀ v ∈ sv.2, 0 ≤ v ∧ v ≤ 1) ∧
    (collect_entropy inp pool).last_refresh = inp.now ∧
    (collect_entropy inp pool).refresh_count = pool.refresh_count + 1 := by
  intro inp pool
  refine ⟨rfl, ?_, rfl, rfl⟩
  intro sv hsv
  simp only [collect_entropy, List.mem_cons, List.not_mem_nil, or_false] at hsv
  rcases hsv with rfl | rfl | rfl | rfl | rfl | rfl | rfl
  · refine ⟨by simp, ?_⟩
    intro v hv
    simp only [List.mem_map, List.mem_range] at hv
    obtain ⟨i, -, rfl⟩ := hv
    have hlt : inp.timeNs i % 10000 < 10000 := Nat.mod_lt _ (by norm_num)
    constructor
    · positivity
    · rw [div_le_one (by norm_num)]
      exact_mod_cast le_of_lt hlt
  · refine ⟨by simp, ?_⟩
    intro v hv
    simp only [List.mem_map, List.mem_range] at hv
    obtain ⟨i, -, rfl⟩ := hv
    have hlt : ((inp.cryptoBits i : ℕ) : ℝ) < 2 ^ 32 := by
      exact_mod_cast (inp.cryptoBits i).isLt
    constructor
    · positivity
    · rw [div_le_one (by positivity)]
      linarith
  · refine ⟨by simp, ?_⟩
    intro v hv
    simp only [List.mem_map, List.mem_range] at hv
    obtain ⟨i, -, rfl⟩ := hv
    have h0 : (0 : ℤ) ≤ (inp.hashVals i).emod 10000 :=
      Int.emod_nonneg _ (by norm_num)
    have hlt : (inp.hashVals i).emod 10000 < 10000 :=
      Int.emod_lt_of_pos _ (by norm_num)
    constructor
    · have : (0 : ℝ) ≤ (((inp.hashVals i).emod 10000 : ℤ) : ℝ) := by
        exact_mod_cast h0
      positivity
    · rw [div_le_one (by norm_num)]
      exact_mod_cast le_of_lt hlt
  · refine ⟨by simp, ?_⟩
    intro v hv
    simp only [List.mem_map, List.mem_range] at hv
    obtain ⟨i, -, rfl⟩ := hv
    have hs1 := Real.neg_one_le_sin (inp.now * 0.1)
    have hs2 := Real.sin_le_one (inp.now * 0.1)
    exact logisticIter_mem (by nlinarith) (by nlinarith) (i + 1)
  · refine ⟨by simp, ?_⟩
    intro v hv
    simp only [List.mem_map, List.mem_range] at hv
    obtain ⟨i, -, rfl⟩ := hv
    rw [quantumAmp_eq_one]
    norm_num
  · refine ⟨by simp, ?_⟩
    intro v hv
    simp only [List.mem_map, List.mem_range] at hv
    obtain ⟨i, -, rfl⟩ := hv
    have hlt : ((inp.shaVals i : ℕ) : ℝ) < 2 ^ 32 := by
      exact_mod_cast (inp.shaVals i).isLt
    constructor
    · positivity
    · rw [div_le_one (by positivity)]
      linarith
  · refine ⟨by simp, ?_⟩
    intro v hv
    simp only [List.mem_map, List.mem_range] at hv
    obtain ⟨i, -, rfl⟩ := hv
    obtain ⟨hm1, hm2⟩ := sin_mul_cos_bounds (inp.now * 0.01 + (i : ℝ) * 0.1)
      (inp.now * 0.007 + (i : ℝ) * 0.13)
    constructor <;> linarith

/-- Claim C9: every one of the 100 observations of the `quantum_sim` source
equals exactly `1.0`, because
`abs(sin(phase) + 1j*cos(phase))**2 = sin(phase)^2 + cos(phase)^2 = 1`
for every phase: despite drawing a fresh random phase per observation, the
source is the constant 1. -/
theorem C9_quantum_constant :
    ∀ (inp : CollectInputs) (pool : EntropyPool),
    List.lookup "quantum_sim" (collect_entropy inp pool).sources =
      some (List.replicate 100 (1 : ℝ)) := by
  intro inp pool
  have h : (List.range 100).map (fun i => quantumAmp (inp.phases i)) =
      List.replicate 100 (1 : ℝ) := by
    refine List.eq_replicate_iff.mpr ⟨by simp, ?_⟩
    intro b hb
    simp only [List.mem_map, List.mem_range] at hb
    obtain ⟨i, -, rfl⟩ := hb
    exact quantumAmp_eq_one _
  simp [collect_entropy, List.lookup, h]

/-! ### Claims C4 and C10 -/

theorem srcContrib_zero_weight (pool : List (String × List K)) (i : ℕ)
    (s : String) : srcContrib pool i (s, 0) = 0 := by
  cases hl : List.lookup s pool with
  | none => simp [srcContrib, hl]
  | some l =>
    cases l with
    | nil => simp [srcContrib, hl]
    | cons v vs => simp [srcContrib, hl]

theorem srcContrib_eq_claimTerm (pool : List (String × List K)) (i : ℕ)
    (s : String) (w : K) :
    srcContrib pool i (s, w) =
      (match List.lookup s pool with
       | none => 0
       | some l => w * l.getD (i % l.length) 0) := by
  cases hl : List.lookup s pool with
  | none => simp [srcContrib, hl]
  | some l =>
    cases l with
    | nil => simp [srcContrib, hl, List.getD]
    | cons v vs => simp [srcContrib, hl]

theorem zip_sum_eq_range_sum (pool : List (String × List K)) (i : ℕ) :
    ∀ (srcs : List String) (ws : List K),
    ((srcs.zip ws).map (srcContrib pool i)).sum =
      ∑ j ∈ Finset.range srcs.length,
        srcContrib pool i (srcs.getD j "", ws.getD j 0) := by
  intro srcs
  induction srcs with
  | nil => intro ws; simp
  | cons s ss ih =>
    intro ws
    cases ws with
    | nil =>
      simp only [List.zip_nil_right, List.map_nil, List.sum_nil]
      rw [eq_comm]
      apply Finset.sum_eq_zero
      intro j hj
      rw [List.getD_nil]
      exact srcContrib_zero_weight pool i _
    | cons w ws2 =>
      rw [List.zip_cons_cons, List.map_cons, List.sum_cons, ih ws2,
        List.length_cons, Finset.sum_range_succ']
      simp only [List.getD_cons_succ, List.getD_cons_zero]
      rw [add_comm]

theorem mixValue_eq_claim (pool : List (String × List K)) (srcs : List String)
    (i : ℕ) : mixValue pool srcs i = Int.fract (claimMixedValue pool srcs i) := by
  unfold mixValue claimMixedValue
  congr 1
  rw [zip_sum_eq_range_sum]
  exact Finset.sum_congr rfl (fun j hj => srcContrib_eq_claimTerm pool i _ _)

/-- Claim C4: for every `count ≥ 1` and every requested source list over a
pool whose present sources are all non-empty, `get_mixed_entropy` returns
exactly `count` values; the value at index `i` equals the spec's formula
(the sum over requested sources that exist in the pool of
`weight_j * source_j[i mod len(source_j)]`, with the fixed positional weight
vector, reduced modulo 1.0); unknown source names contribute nothing instead
of raising; and every returned value lies in `[0, 1)`. -/
theorem C4_get_mixed_entropy :
    ∀ (pool : List (String × List K)) (srcs : List String) (count : ℕ),
    1 ≤ count → (∀ sv ∈ pool, sv.2 ≠ []) →
    (get_mixed_entropy pool count srcs).length = count ∧
    (∀ i, i < count →
      (get_mixed_entropy pool count srcs).getD i 0 =
        Int.fract (claimMixedValue pool srcs i)) ∧
    (∀ v ∈ get_mixed_entropy pool count srcs, 0 ≤ v ∧ v < 1) := by
  intro pool srcs count hc hpool
  refine ⟨length_get_mixed_entropy pool count srcs, ?_,
    fun v hv => mem_get_mixed_entropy_bounds hv⟩
  intro i hi
  rw [getD_get_mixed_entropy pool count srcs hi, mixValue_eq_claim]

/-- Witness for `C4_get_mixed_entropy` at a concrete rational pool. -/
theorem C4_witness :
    (get_mixed_entropy [("system_time", [(1 : ℚ) / 2])] 1 ["system_time"]).getD 0 0 =
      Int.fract (claimMixedValue [("system_time", [(1 : ℚ) / 2])] ["system_time"] 0) :=
  (C4_get_mixed_entropy [("system_time", [(1 : ℚ) / 2])] ["system_time"] 1
    (by norm_num) (by decide)).2.1 0 (by norm_num)

/-- Claim C10: when the explicitly requested source list matches nothing in
the pool (unknown names, or an empty list), `get_mixed_entropy` raises no
error and returns exactly `count` values, all `0.0`. -/
theorem C10_unmatched_sources_zero :
    ∀ (pool : List (String × List K)) (srcs : List String) (count : ℕ),
    1 ≤ count → (∀ s ∈ srcs, List.lookup s pool = none) →
    get_mixed_entropy pool count srcs = List.replicate count 0 := by
  intro pool srcs count hc hnone
  apply List.eq_replicate_iff.mpr
  refine ⟨length_get_mixed_entropy pool count srcs, ?_⟩
  intro b hb
  simp only [get_mixed_entropy, List.mem_map, List.mem_range] at hb
  obtain ⟨i, -, rfl⟩ := hb
  unfold mixValue
  have hsum : ((srcs.zip weights).map (srcContrib pool i)).sum = (0 : K) := by
    apply List.sum_eq_zero
    intro x hx
    simp only [List.mem_map] at hx
    obtain ⟨sw, hsw, rfl⟩ := hx
    obtain ⟨s, w⟩ := sw
    have hmem : s ∈ srcs := (List.of_mem_zip hsw).1
    simp [srcContrib, hnone s hmem]
  rw [hsum, Int.fract_zero]

/-- Witness for `C10_unmatched_sources_zero` at a concrete rational pool. -/
theorem C10_witness :
    get_mixed_entropy [("atmospheric", [(1 : ℚ) / 2])] 2 ["nope", "absent"] =
      List.replicate 2 0 :=
  C10_unmatched_sources_zero [("atmospheric", [(1 : ℚ) / 2])] ["nope", "absent"] 2
    (by norm_num) (by decide)

/-! ### Claims C5 and C6 -/

/-- The mixed stream drawn inside `generate_cache` (source line 179):
`RANDOMNESS_CACHE_SIZE = 10000` values mixed with the default source list
(all pool keys). -/
def generationStream (pool : List (String × List K)) : List K :=
  get_mixed_entropy pool 10000 (pool.map Prod.fst)

theorem mem_generationStream_bounds {pool : List (String × List K)} {v : K}
    (hv : v ∈ generationStream pool) : 0 ≤ v ∧ v < 1 :=
  mem_get_mixed_entropy_bounds hv

/-- Claim C5: in every generation, every derived-cache value satisfies its
numeric contract by construction of the transform (no clamping):
`stochastic_jitter` values are `(v - 0.5) * 0.2` of a mixed value `v ∈ [0,1)`
and lie in `[-0.1, 0.1]`; `temporal_variance` values are `0.5 + v * 1.5` and
lie in `[0.5, 2.0]`; `similarity_thresholds` values are `0.1 + v * 0.7` and
lie in `[0.1, 0.8]`; `content_seeds` values are the integer `⌊v * 2^31⌋`;
`exploration_paths` values lie in `[0, 1)`. -/
theorem C5_derived_ranges :
    ∀ (pool : List (String × List ℝ)),
    (∀ x ∈ (derivedCaches (generationStream pool)).stochastic_jitter,
      (∃ v, 0 ≤ v ∧ v < 1 ∧ x = (v - 0.5) * 0.2) ∧ -0.1 ≤ x ∧ x ≤ 0.1) ∧
    (∀ x ∈ (derivedCaches (generationStream pool)).temporal_variance,
      (∃ v, 0 ≤ v ∧ v < 1 ∧ x = 0.5 + v * 1.5) ∧ 0.5 ≤ x ∧ x ≤ 2) ∧
    (∀ x ∈ (derivedCaches (generationStream pool)).similarity_thresholds,
      (∃ v, 0 ≤ v ∧ v < 1 ∧ x = 0.1 + v * 0.7) ∧ 0.1 ≤ x ∧ x ≤ 0.8) ∧
    (∀ s ∈ (derivedCaches (generationStream pool)).content_seeds,
      ∃ v : ℝ, 0 ≤ v ∧ v < 1 ∧ s = ⌊v * 2 ^ 31⌋) ∧
    (∀ x ∈ (derivedCaches (generationStream pool)).exploration_paths,
      0 ≤ x ∧ x < 1) := by
  intro pool
  refine ⟨?_, ?_, ?_, ?_, ?_⟩
  · intro x hx
    simp only [derivedCaches] at hx
    rw [List.mem_map] at hx
    obtain ⟨v, hvt, rfl⟩ := hx
    obtain ⟨h0, h1⟩ := mem_generationStream_bounds
      (List.take_subset _ _ hvt)
    exact ⟨⟨v, h0, h1, rfl⟩, by linarith, by linarith⟩
  · intro x hx
    simp only [derivedCaches] at hx
    rw [List.mem_map] at hx
    obtain ⟨v, hvt, rfl⟩ := hx
    obtain ⟨h0, h1⟩ := mem_generationStream_bounds
      (List.drop_subset _ _ (List.take_subset _ _ hvt))
    exact ⟨⟨v, h0, h1, rfl⟩, by linarith, by linarith⟩
  · intro x hx
    simp only [derivedCaches] at hx
    rw [List.mem_map] at hx
    obtain ⟨v, hvt, rfl⟩ := hx
    obtain ⟨h0, h1⟩ := mem_generationStream_bounds
      (List.drop_subset _ _ (List.take_subset _ _ hvt))
    exact ⟨⟨v, h0, h1, rfl⟩, by linarith, by linarith⟩
  · intro s hs
    simp only [derivedCaches] at hs
    rw [List.mem_map] at hs
    obtain ⟨v, hvt, rfl⟩ := hs
    obtain ⟨h0, h1⟩ := mem_generationStream_bounds
      (List.drop_subset _ _ (List.take_subset _ _ hvt))
    refine ⟨v, h0, h1, ?_⟩
    unfold py_int
    rw [if_pos (by positivity)]
  · intro x hx
    simp only [derivedCaches] at hx
    exact mem_generationStream_bounds (List.drop_subset _ _ hx)

theorem clusteringGroups_mem {m : List K} {g : List K}
    (hg : g ∈ clusteringGroups m) : g.length = 5 ∧ g ⊆ m := by
  simp only [clusteringGroups, List.mem_map, List.mem_range] at hg
  obtain ⟨k, hk, rfl⟩ := hg
  constructor
  · rw [List.length_take, List.length_drop]
    omega
  · intro x hx
    exact List.drop_subset _ _ (List.take_subset _ _ hx)

theorem length_filterMap_eq_countP {α β : Type} (f : α → Option β)
    (l : List α) :
    (l.filterMap f).length = l.countP (fun a => (f a).isSome) := by
  induction l with
  | nil => rfl
  | cons a l ih =>
    rw [List.filterMap_cons, List.countP_cons]
    cases hf : f a with
    | none => simp [hf, ih]
    | some b => simp [hf, ih]

theorem length_clustering_weights_of (m : List K) :
    (clustering_weights_of m).length =
      (clusteringGroups m).countP (fun g => decide (0 < g.sum)) := by
  unfold clustering_weights_of
  rw [length_filterMap_eq_countP]
  apply List.countP_congr
  intro g hg
  by_cases h : 0 < g.sum
  · simp [h]
  · simp [h]

/-- Claim C6: in every generation, every `clustering_weights` entry is a
5-element vector of non-negative components whose sum is 1 within tolerance
0.01, obtained by normalizing a group of 5 consecutive mixed-stream values by
its raw sum; and a group with raw sum 0 produces no vector at all (the number
of vectors equals the number of groups with positive raw sum, so no
unnormalized or partial vector is ever emitted). -/
theorem C6_clustering_weights :
    ∀ (pool : List (String × List ℝ)),
    (∀ v ∈ (derivedCaches (generationStream pool)).clustering_weights,
      v.length = 5 ∧ (∀ c ∈ v, 0 ≤ c) ∧ |v.sum - 1| < 0.01 ∧
      ∃ g ∈ clusteringGroups (generationStream pool),
        0 < g.sum ∧ v = g.map (fun w => w / g.sum)) ∧
    ((derivedCaches (generationStream pool)).clustering_weights).length =
      (clusteringGroups (generationStream pool)).countP
        (fun g => decide (0 < g.sum)) := by
  intro pool
  constructor
  · intro v hv
    have hv2 : v ∈ clustering_weights_of (generationStream pool) := hv
    unfold clustering_weights_of at hv2
    rw [List.mem_filterMap] at hv2
    obtain ⟨g, hgmem, hfg⟩ := hv2
    by_cases h : 0 < g.sum
    · rw [if_pos h, Option.some.injEq] at hfg
      subst hfg
      obtain ⟨hglen, hgsub⟩ := clusteringGroups_mem hgmem
      have hsum : (g.map (fun w => w / g.sum)).sum = 1 := by
        simp only [div_eq_mul_inv]
        rw [List.sum_map_mul_right, List.map_id']
        exact mul_inv_cancel₀ (ne_of_gt h)
      refine ⟨by rw [List.length_map, hglen], ?_, ?_, g, hgmem, h, rfl⟩
      · intro c hc
        simp only [List.mem_map] at hc
        obtain ⟨w, hw, rfl⟩ := hc
        exact div_nonneg
          (mem_generationStream_bounds (hgsub hw)).1 (le_of_lt h)
      · rw [hsum]
        norm_num
    · rw [if_neg h] at hfg
      cases hfg
  · exact length_clustering_weights_of _

/-! ### Claim C7 -/

/-- Claim C7: for every entropy-pool state, the quality report maps each
source with a non-empty observation vector to `min(1, 2 * p)` where
`p = 1 - chi2cdf(stat, 9)` is the p-value of the chi-square statistic of the
10-equal-width-bin histogram of the observations over `[0, 1]` at 9 degrees
of freedom, and maps each source with an empty vector to exactly `0.0`; since
a cumulative distribution function takes values in `[0, 1]`, every reported
score lies in `[0, 1]`.  The report is entrywise aligned with the pool. -/
theorem C7_entropy_quality :
    ∀ (chi2cdf : K → ℕ → K) (pool : List (String × List K)),
    (∀ x, 0 ≤ chi2cdf x 9 ∧ chi2cdf x 9 ≤ 1) →
    List.Forall₂ (fun (sv : String × List K) (sq : String × K) =>
      sq.1 = sv.1 ∧
      sq.2 = (if sv.2 = [] then 0
              else min 1 ((1 - chi2cdf (chi2_stat sv.2) 9) * 2)) ∧
      0 ≤ sq.2 ∧ sq.2 ≤ 1)
      pool (get_entropy_quality chi2cdf pool) := by
  intro cdf pool hcdf
  induction pool with
  | nil => exact List.Forall₂.nil
  | cons sv rest ih =>
    refine List.Forall₂.cons ?_ ih
    obtain ⟨s, vs⟩ := sv
    cases vs with
    | nil => exact ⟨rfl, by simp, le_refl 0, zero_le_one⟩
    | cons v vs2 =>
      obtain ⟨hc0, hc1⟩ := hcdf (chi2_stat (v :: vs2))
      refine ⟨rfl, by simp, ?_, min_le_left _ _⟩
      exact le_min zero_le_one (by linarith)

/-- Witness for `C7_entropy_quality` with a concrete rational pool holding
one empty and one non-empty source, under the constant cdf `1/2`. -/
theorem C7_witness :
    List.Forall₂ (fun (sv : String × List ℚ) (sq : String × ℚ) =>
      sq.1 = sv.1 ∧
      sq.2 = (if sv.2 = [] then 0
              else min 1 ((1 - (fun (_ : ℚ) (_ : ℕ) => (1 : ℚ) / 2)
                (chi2_stat sv.2) 9) * 2)) ∧
      0 ≤ sq.2 ∧ sq.2 ≤ 1)
      [("a", ([] : List ℚ)), ("b", [(1 : ℚ) / 2])]
      (get_entropy_quality (fun (_ : ℚ) (_ : ℕ) => (1 : ℚ) / 2)
        [("a", ([] : List ℚ)), ("b", [(1 : ℚ) / 2])]) :=
  C7_entropy_quality (fun _ _ => (1 : ℚ) / 2)
    [("a", ([] : List ℚ)), ("b", [(1 : ℚ) / 2])]
    (fun x => ⟨by norm_num, by norm_num⟩)

/-! ### Claim C8 -/

/-- Claim C8: on every read endpoint, a request whose `count` lies outside
the endpoint's declared bounds (lower bound 1 everywhere; upper bound 1000
for jitter, temporal-variance, similarity-thresholds and exploration-paths,
100 for clustering-weights, 5000 for mixed) is rejected with the
`InvalidArgument` client error and the service state is returned untouched —
no cache generation or cache read happens, and the count is never silently
clamped into range. -/
theorem C8_count_validation :
    ∀ (e : Ep) (count : ℤ) (srcs : Option (List String)) (inp : CollectInputs)
      (rc : RandomnessCache),
    (count < (endpointBounds e).1 ∨ (endpointBounds e).2 < count) →
    handleEndpoint e count srcs inp rc = (.error .invalidArgument, rc) := by
  intro e count srcs inp rc h
  cases e with
  | jitter =>
    simp only [endpointBounds] at h
    simp only [handleEndpoint, get_stochastic_jitter]
    rw [if_pos h]
  | clustering =>
    simp only [endpointBounds] at h
    simp only [handleEndpoint, get_clustering_weights]
    rw [if_pos h]
  | temporal =>
    simp only [endpointBounds] at h
    simp only [handleEndpoint, get_temporal_variance]
    rw [if_pos h]
  | similarity =>
    simp only [endpointBounds] at h
    simp only [handleEndpoint, get_similarity_thresholds]
    rw [if_pos h]
  | exploration =>
    simp only [endpointBounds] at h
    simp only [handleEndpoint, get_exploration_paths]
    rw [if_pos h]
  | mixed =>
    simp only [endpointBounds] at h
    simp only [handleEndpoint, get_mixed_entropy_endpoint]
    rw [if_pos h]

/-- A concrete set of collector inputs used by the `C8_count_validation`
witness. -/
def inp0 : CollectInputs where
  now := 0
  timeNs := fun _ => 0
  cryptoBits := fun _ => ⟨0, by positivity⟩
  hashVals := fun _ => 0
  phases := fun _ => 0
  shaVals := fun _ => ⟨0, by positivity⟩

/-- Witness for `C8_count_validation`: `count = 0` on the jitter endpoint is
rejected and the freshly initialized service state is left unchanged. -/
theorem C8_witness :
    handleEndpoint .jitter 0 none inp0 RandomnessCache.init =
      (.error .invalidArgument, RandomnessCache.init) :=
  C8_count_validation .jitter 0 none inp0 RandomnessCache.init
    (Or.inl (by decide))

/-! ### Additional concrete witnesses -/

theorem generationStream_nil :
    generationStream ([] : List (String × List ℝ)) = List.replicate 10000 0 := by
  apply List.eq_replicate_iff.mpr
  refine ⟨by simp [generationStream, get_mixed_entropy], ?_⟩
  intro b hb
  simp only [generationStream, get_mixed_entropy, List.mem_map,
    List.mem_range] at hb
  obtain ⟨i, -, rfl⟩ := hb
  simp [mixValue]

/-- Witness for `C3_collect_entropy`: at concrete inputs, the freshly built
`system_time` vector has exactly 100 observations. -/
theorem C3_witness :
    ((List.range 100).map
      (fun i => ((inp0.timeNs i % 10000 : ℕ) : ℝ) / 10000)).length = 100 :=
  ((C3_collect_entropy inp0 EntropyPool.init).2.1 _ (List.mem_cons_self _ _)).1

/-- Witness for `C5_derived_ranges`: over the empty pool the mixed stream is
all zeros, so `-0.1` is a published jitter value and obeys its bound. -/
theorem C5_witness :
    (-0.1 : ℝ) ∈ (derivedCaches
      (generationStream ([] : List (String × List ℝ)))).stochastic_jitter ∧
    (-0.1 : ℝ) ≤ 0.1 := by
  have hmem : (-0.1 : ℝ) ∈ (derivedCaches
      (generationStream ([] : List (String × List ℝ)))).stochastic_jitter := by
    have h : (derivedCaches
        (generationStream ([] : List (String × List ℝ)))).stochastic_jitter =
        List.replicate 2000 (-0.1 : ℝ) := by
      simp only [derivedCaches, generationStream_nil, List.take_replicate,
        List.map_replicate]
      norm_num
    rw [h]
    exact List.mem_replicate.mpr ⟨by norm_num, rfl⟩
  exact ⟨hmem, ((C5_derived_ranges []).1 (-0.1) hmem).2.2⟩

/-- Witness for `C6_clustering_weights` at the empty pool (its all-zero
stream makes every group sum 0, so no vector is emitted). -/
theorem C6_witness :
    ((derivedCaches
      (generationStream ([] : List (String × List ℝ)))).clustering_weights).length =
      (clusteringGroups (generationStream ([] : List (String × List ℝ)))).countP
        (fun g => decide (0 < g.sum)) :=
  (C6_clustering_weights []).2

end RandomnessService
